import Mathlib

/-!
Verification of the dependency-injection container in
`src/dependency_injection.py`.

The embedding is a state-passing translation of the `ServiceContainer`
class.  Python dictionaries become association lists over their string
keys, Python object identity is modelled by numbering each freshly
constructed object with an allocation counter carried in the state, and
Python exceptions become an `Except` error channel whose error type
mirrors the exception classes of the source
(`DependencyResolutionException` and its subclass
`CircularDependencyException`; anything not derived from them, such as a
`ValueError` escaping a factory, is `PyErr.other`).

`_resolve_internal` recurses through `_create_instance`,
`_create_with_dependencies` and the parameter loop; the recursion is made
structural on an explicit fuel argument (Python's recursion is bounded by
the interpreter's recursion limit in the same way), consumed one unit per
nested `_resolve_internal` call.  The resolver reads but never writes
`_registrations` and `_interceptors`, exactly as in the source, so those
two fields are passed read-only and only the mutable caches are threaded.
-/

/-- Value is the universe of Python object instances.  `obj i` is the
object allocated by the `i`-th constructor or fresh-factory call on the
container (object identity); `marked t v` is a wrapper object, used to
model interceptors that decorate an instance with a distinguishable
marker. -/
inductive Value where
  | obj (id : Nat)
  | marked (tag : Nat) (v : Value)
deriving DecidableEq, Repr

/-- LifecycleScope mirrors the `LifecycleScope` enum of the source. -/
inductive LifecycleScope where
  | SINGLETON
  | TRANSIENT
  | SCOPED
deriving DecidableEq, Repr

/-- PyErr mirrors the exception hierarchy of the source:
`dependencyResolution` is `DependencyResolutionException`,
`circularDependency` its subclass `CircularDependencyException`, and
`other` any exception outside that hierarchy (for example a `ValueError`
raised inside a registered factory, or `RecursionError`). -/
inductive PyErr where
  | dependencyResolution (msg : String)
  | circularDependency (msg : String)
  | other (msg : String)
deriving DecidableEq, Repr

/-- Python `except DependencyResolutionException` catches the base class
and every subclass, so `circularDependency` is included. -/
def isDependencyResolutionErr : PyErr → Bool
  | .dependencyResolution _ => true
  | .circularDependency _ => true
  | .other _ => false

/-- The message of an exception, Python `str(e)`. -/
def errMsg : PyErr → String
  | .dependencyResolution m => m
  | .circularDependency m => m
  | .other m => m

/-- PyType models a Python class as the container sees it: its
`__module__`, its `__name__`, the parameters of its `__init__` after
`self` (each a name, an optional annotation and whether it has a
default), and whether the constructor body raises once invoked.  An
annotated parameter is resolved through the container; the annotation is
consulted only for its registration key and its name, exactly as in the
source, where construction always uses the class stored in the
registration table. -/
inductive PyType where
  | mk (module : String) (typeName : String)
      (params : List (String × Option PyType × Bool)) (ctorRaises : Bool)

def PyType.module : PyType → String
  | .mk m _ _ _ => m

def PyType.typeName : PyType → String
  | .mk _ n _ _ => n

def PyType.params : PyType → List (String × Option PyType × Bool)
  | .mk _ _ ps _ => ps

def PyType.ctorRaises : PyType → Bool
  | .mk _ _ _ r => r

/-- Name of a constructor parameter. -/
def paramName (p : String × Option PyType × Bool) : String := p.1

/-- Annotation of a constructor parameter (`none` models a missing or
empty annotation). -/
def paramAnnot (p : String × Option PyType × Bool) : Option PyType := p.2.1

/-- Whether a constructor parameter has a default value. -/
def paramHasDefault (p : String × Option PyType × Bool) : Bool := p.2.2

/-- Factory models a zero-argument registered factory callable: it can
return a fixed captured value, raise an exception outside the
`DependencyResolutionException` hierarchy, or build and return a fresh
object. -/
inductive Factory where
  | ret (v : Value)
  | raises (msg : String)
  | fresh
deriving DecidableEq, Repr

/-- Registration mirrors the `DependencyRegistration` dataclass.  The
Python field `instance` is named `instVal` because `instance` is a Lean
keyword. -/
structure Registration where
  service_type : PyType
  implementation_type : Option PyType := none
  factory : Option Factory := none
  instVal : Option Value := none
  lifecycle : LifecycleScope := .TRANSIENT
  name : Option String := none

/-- An interceptor is a callable `(service_type, instance) -> instance`,
exactly the shape `add_interceptor` accepts. -/
abbrev Interceptor := PyType → Value → Value

/-- dictLookup models `d.get(k)` / `k in d` on a Python dict encoded as
an association list. -/
def dictLookup {α : Type} : List (String × α) → String → Option α
  | [], _ => none
  | (k, v) :: rest, key => if k = key then some v else dictLookup rest key

/-- dictInsert models `d[k] = v` on a Python dict encoded as an
association list: it replaces the value at an existing key and otherwise
appends. -/
def dictInsert {α : Type} : List (String × α) → String → α → List (String × α)
  | [], key, v => [(key, v)]
  | (k, w) :: rest, key, v =>
    if k = key then (key, v) :: rest else (k, w) :: dictInsert rest key v

/-- Caches is the part of the container state that `_resolve_internal`
mutates: `_singletons`, `_scoped_instances` (thread id to per-thread
cache) and the allocation counter modelling object identity of freshly
constructed instances. -/
structure Caches where
  singletons : List (String × Value)
  scoped_instances : List (String × List (String × Value))
  nextId : Nat
deriving DecidableEq, Repr

/-- Key generation, `ServiceContainer._get_key`: the key is
`module.name`, with `:name` appended only when the registration name is
truthy — so both `None` and the empty string leave the key bare. -/
def _get_key (service_type : PyType) (name : Option String) : String :=
  let key := service_type.module ++ "." ++ service_type.typeName
  match name with
  | none => key
  | some n => if n = "" then key else key ++ ":" ++ n

/-- Interceptor application, `ServiceContainer._apply_interceptors`: a
left fold of the registered interceptors over the instance. -/
def _apply_interceptors (interceptors : List Interceptor)
    (service_type : PyType) (inst : Value) : Value :=
  interceptors.foldl (fun result interceptor => interceptor service_type result) inst

/-- A dependency resolver: the recursive entry point handed to the
construction helpers.  It receives the caches, the annotated dependency
class and the resolution path, as in the source where
`_create_with_dependencies` calls `self._resolve_internal(param.annotation,
None, resolution_path)` on the calling thread. -/
abbrev DepResolver := Caches → PyType → List String → Except PyErr Value × Caches

/-- Invoking a registered factory, `registration.factory()` in
`_create_instance`.  The call sits outside every try block of the
source, so a raising factory propagates its exception unwrapped. -/
def runFactory (f : Factory) (caches : Caches) : Except PyErr Value × Caches :=
  match f with
  | .ret v => (.ok v, caches)
  | .raises msg => (.error (.other msg), caches)
  | .fresh => (.ok (.obj caches.nextId), { caches with nextId := caches.nextId + 1 })

/-- The parameter loop of `ServiceContainer._create_with_dependencies`:
for each constructor parameter with a non-empty annotation, resolve the
annotation through the container; a failure of the
`DependencyResolutionException` family is swallowed when the parameter
has a default and otherwise re-raised as a fresh
`DependencyResolutionException` naming the parameter (losing the
original exception type — there is no `from e` in the source and the
inner `except` clause only matches that family); any other exception
escapes the loop.  The source formats the failure as
`f"Cannot resolve parameter '{param.name}' of type {param.annotation}"`;
the model keeps the parameter name and the annotated class name. -/
def resolveParams (resolveDep : DepResolver) (caches : Caches)
    (params : List (String × Option PyType × Bool)) (path : List String) :
    Except PyErr Unit × Caches :=
  match params with
  | [] => (.ok (), caches)
  | p :: rest =>
    match paramAnnot p with
    | none => resolveParams resolveDep caches rest path
    | some ann =>
      match resolveDep caches ann path with
      | (.ok _, caches2) => resolveParams resolveDep caches2 rest path
      | (.error e, caches2) =>
        if isDependencyResolutionErr e then
          if paramHasDefault p then resolveParams resolveDep caches2 rest path
          else
            (.error (.dependencyResolution
              ("Cannot resolve parameter " ++ paramName p ++ " of type "
                ++ PyType.typeName ann)), caches2)
        else (.error e, caches2)

/-- `ServiceContainer._create_with_dependencies`: resolve the annotated
constructor parameters, then invoke the constructor.  The whole body sits
in a blanket `except Exception` that re-raises every escaping exception
— the parameter-loop failures, a `TypeError` for a parameter that is
neither injectable nor defaulted, an exception from the constructor
body, and even a `CircularDependencyException` from a nested resolution
— as a `DependencyResolutionException` whose message is
`f"Failed to create {implementation_type.__name__}: {str(e)}"`.
Invoking the constructor successfully allocates a fresh object. -/
def _create_with_dependencies (resolveDep : DepResolver) (caches : Caches)
    (implementation_type : PyType) (path : List String) :
    Except PyErr Value × Caches :=
  match resolveParams resolveDep caches implementation_type.params path with
  | (.error e, caches2) =>
    (.error (.dependencyResolution
      ("Failed to create " ++ implementation_type.typeName ++ ": " ++ errMsg e)),
     caches2)
  | (.ok _, caches2) =>
    if implementation_type.params.any
        (fun p => (paramAnnot p).isNone && !(paramHasDefault p)) then
      (.error (.dependencyResolution
        ("Failed to create " ++ implementation_type.typeName
          ++ ": missing required argument")), caches2)
    else if implementation_type.ctorRaises then
      (.error (.dependencyResolution
        ("Failed to create " ++ implementation_type.typeName
          ++ ": constructor raised")), caches2)
    else
      (.ok (.obj caches2.nextId), { caches2 with nextId := caches2.nextId + 1 })

/-- `ServiceContainer._create_instance`: a stored instance wins, then a
factory (invoked outside any try block), then the implementation type
via dependency injection; a registration with none of the three fails. -/
def _create_instance (resolveDep : DepResolver) (caches : Caches)
    (registration : Registration) (path : List String) :
    Except PyErr Value × Caches :=
  match registration.instVal with
  | some v => (.ok v, caches)
  | none =>
    match registration.factory with
    | some f => runFactory f caches
    | none =>
      match registration.implementation_type with
      | none =>
        (.error (.dependencyResolution
          ("No implementation for " ++ registration.service_type.typeName)), caches)
      | some impl => _create_with_dependencies resolveDep caches impl path

/-- `ServiceContainer._resolve_internal`.  The resolution path is the
`set` the source threads through the recursion; the source joins it with
`" -> "` to format the cycle message (a Python set iterates in an
unspecified order — the model keeps insertion order, which is one of the
orders the set may produce).  The fuel argument makes the recursion
structural; Python bounds the same recursion by its interpreter
recursion limit, and `RecursionError` is outside the
`DependencyResolutionException` family, hence `.other`.  The branches
mirror the source: singleton cache hit or construct-and-cache, scoped
keyed by the calling thread id (the per-thread dictionary is created
before the hit check), transient always fresh; every returned instance
passes through `_apply_interceptors`. -/
def _resolve_internal : Nat → List (String × Registration) → List Interceptor →
    Caches → PyType → Option String → String → List String →
    Except PyErr Value × Caches
  | 0, _, _, caches, _, _, _, _ =>
    (.error (.other ("maximum recursion depth exceeded")), caches)
  | fuel + 1, registrations, interceptors, caches, service_type, name,
      thread_id, resolution_path =>
    let key := _get_key service_type name
    if key ∈ resolution_path then
      (.error (.circularDependency
        ("Circular dependency detected: "
          ++ String.intercalate (" -> ") resolution_path ++ " -> " ++ key)),
       caches)
    else
      match dictLookup registrations key with
      | none =>
        (.error (.dependencyResolution
          ("Service " ++ service_type.typeName ++ " not registered")), caches)
      | some registration =>
        let resolveDep : DepResolver := fun c dep p =>
          _resolve_internal fuel registrations interceptors c dep none thread_id p
        let path2 := resolution_path ++ [key]
        match registration.lifecycle with
        | .SINGLETON =>
          match dictLookup caches.singletons key with
          | some cached =>
            (.ok (_apply_interceptors interceptors service_type cached), caches)
          | none =>
            match _create_instance resolveDep caches registration path2 with
            | (.error e, caches2) => (.error e, caches2)
            | (.ok inst, caches2) =>
              (.ok (_apply_interceptors interceptors service_type inst),
               { caches2 with singletons := dictInsert caches2.singletons key inst })
        | .SCOPED =>
          let caches1 :=
            if (dictLookup caches.scoped_instances thread_id).isSome then caches
            else { caches with
                    scoped_instances := dictInsert caches.scoped_instances thread_id [] }
          match dictLookup ((dictLookup caches1.scoped_instances thread_id).getD []) key with
          | some cached =>
            (.ok (_apply_interceptors interceptors service_type cached), caches1)
          | none =>
            match _create_instance resolveDep caches1 registration path2 with
            | (.error e, caches2) => (.error e, caches2)
            | (.ok inst, caches2) =>
              (.ok (_apply_interceptors interceptors service_type inst),
               { caches2 with
                  scoped_instances :=
                    dictInsert caches2.scoped_instances thread_id
                      (dictInsert ((dictLookup caches2.scoped_instances thread_id).getD [])
                        key inst) })
        | .TRANSIENT =>
          match _create_instance resolveDep caches registration path2 with
          | (.error e, caches2) => (.error e, caches2)
          | (.ok inst, caches2) =>
            (.ok (_apply_interceptors interceptors service_type inst), caches2)

/-- The full state of a `ServiceContainer`. -/
structure ContainerState where
  registrations : List (String × Registration)
  singletons : List (String × Value)
  scoped_instances : List (String × List (String × Value))
  interceptors : List Interceptor
  nextId : Nat

/-- A freshly constructed `ServiceContainer()`. -/
def emptyContainer : ContainerState :=
  { registrations := []
    singletons := []
    scoped_instances := []
    interceptors := []
    nextId := 0 }

/-- The mutable slice of the container state. -/
def ContainerState.caches (st : ContainerState) : Caches :=
  { singletons := st.singletons
    scoped_instances := st.scoped_instances
    nextId := st.nextId }

/-- Write the mutable slice back. -/
def ContainerState.withCaches (st : ContainerState) (c : Caches) : ContainerState :=
  { st with
    singletons := c.singletons
    scoped_instances := c.scoped_instances
    nextId := c.nextId }

/-- `ServiceContainer.resolve`: `_resolve_internal` with a fresh empty
resolution path.  The thread id is the identity of the calling thread,
which Python reads ambiently; the fuel is the interpreter recursion
budget. -/
def ServiceContainer.resolve (st : ContainerState) (service_type : PyType)
    (name : Option String) (thread_id : String) (fuel : Nat) :
    Except PyErr Value × ContainerState :=
  let r := _resolve_internal fuel st.registrations st.interceptors st.caches
    service_type name thread_id []
  (r.1, st.withCaches r.2)

/-- `ServiceContainer.try_resolve`: `except DependencyResolutionException:
return None` — the caught class is the base of the hierarchy, so the
circular-dependency subclass and every wrapped construction failure are
converted to `None` as well, while exceptions outside the hierarchy
propagate. -/
def ServiceContainer.try_resolve (st : ContainerState) (service_type : PyType)
    (name : Option String) (thread_id : String) (fuel : Nat) :
    Except PyErr (Option Value) × ContainerState :=
  match ServiceContainer.resolve st service_type name thread_id fuel with
  | (.ok v, st2) => (.ok (some v), st2)
  | (.error e, st2) =>
    if isDependencyResolutionErr e then (.ok none, st2) else (.error e, st2)

/-- `ServiceContainer.is_registered`. -/
def ServiceContainer.is_registered (st : ContainerState) (service_type : PyType)
    (name : Option String) : Bool :=
  (dictLookup st.registrations (_get_key service_type name)).isSome

/-- `ServiceContainer._register`: build the registration (defaulting the
implementation type to the service type) and overwrite the table entry;
nothing else in the state is touched. -/
def ServiceContainer._register (st : ContainerState) (service_type : PyType)
    (implementation_type : Option PyType) (lifecycle : LifecycleScope)
    (name : Option String) : ContainerState :=
  { st with
    registrations := dictInsert st.registrations (_get_key service_type name)
      { service_type := service_type
        implementation_type := some (implementation_type.getD service_type)
        lifecycle := lifecycle
        name := name } }

/-- `ServiceContainer.register_singleton`. -/
def ServiceContainer.register_singleton (st : ContainerState) (service_type : PyType)
    (implementation_type : Option PyType := none) (name : Option String := none) :
    ContainerState :=
  ServiceContainer._register st service_type implementation_type .SINGLETON name

/-- `ServiceContainer.register_transient`. -/
def ServiceContainer.register_transient (st : ContainerState) (service_type : PyType)
    (implementation_type : Option PyType := none) (name : Option String := none) :
    ContainerState :=
  ServiceContainer._register st service_type implementation_type .TRANSIENT name

/-- `ServiceContainer.register_scoped`. -/
def ServiceContainer.register_scoped (st : ContainerState) (service_type : PyType)
    (implementation_type : Option PyType := none) (name : Option String := none) :
    ContainerState :=
  ServiceContainer._register st service_type implementation_type .SCOPED name

/-- `ServiceContainer.register_instance`: the only registration call
that also writes the singleton cache. -/
def ServiceContainer.register_instance (st : ContainerState) (service_type : PyType)
    (inst : Value) (name : Option String := none) : ContainerState :=
  let key := _get_key service_type name
  { st with
    registrations := dictInsert st.registrations key
      { service_type := service_type
        instVal := some inst
        lifecycle := .SINGLETON
        name := name }
    singletons := dictInsert st.singletons key inst }

/-- `ServiceContainer.register_factory`: stores the factory under the
requested lifecycle; the caches are untouched. -/
def ServiceContainer.register_factory (st : ContainerState) (service_type : PyType)
    (factory : Factory) (lifecycle : LifecycleScope := .TRANSIENT)
    (name : Option String := none) : ContainerState :=
  { st with
    registrations := dictInsert st.registrations (_get_key service_type name)
      { service_type := service_type
        factory := some factory
        lifecycle := lifecycle
        name := name } }

/-- `ServiceContainer.add_interceptor`: append-only. -/
def ServiceContainer.add_interceptor (st : ContainerState) (i : Interceptor) :
    ContainerState :=
  { st with interceptors := st.interceptors ++ [i] }

/-- The `DependencyScope` class: a handle with its own cache dictionary
on top of a parent container. -/
structure DependencyScope where
  scoped_cache : List (String × Value)

/-- `ServiceContainer.create_scope` / `DependencyScope.__init__`. -/
def DependencyScope.new : DependencyScope := { scoped_cache := [] }

/-- `DependencyScope.resolve`: serve from the handle's own cache, else
delegate to the parent container and remember the result.  A failure of
the parent propagates and caches nothing in the handle. -/
def DependencyScope.resolve (scope : DependencyScope) (st : ContainerState)
    (service_type : PyType) (name : Option String) (thread_id : String)
    (fuel : Nat) : Except PyErr Value × DependencyScope × ContainerState :=
  let key := _get_key service_type name
  match dictLookup scope.scoped_cache key with
  | some v => (.ok v, scope, st)
  | none =>
    match ServiceContainer.resolve st service_type name thread_id fuel with
    | (.ok v, st2) =>
      (.ok v, { scoped_cache := dictInsert scope.scoped_cache key v }, st2)
    | (.error e, st2) => (.error e, scope, st2)

/-- `DependencyScope.__exit__`: clears only the handle's own cache; the
parent container's thread-keyed `_scoped_instances` is not touched. -/
def DependencyScope.close (_ : DependencyScope) : DependencyScope :=
  { scoped_cache := [] }

/-- Lookup of a scoped instance: the per-thread dictionary (empty when
the thread has none) consulted at a key.  This is the observable content
of `_scoped_instances`. -/
def scopedLookup (c : Caches) (thread_id key : String) : Option Value :=
  dictLookup ((dictLookup c.scoped_instances thread_id).getD []) key

/-- Recognizer for the `CircularDependencyException` subclass alone. -/
def isCircularDependencyErr : PyErr → Bool
  | .circularDependency _ => true
  | _ => false

/-! Concrete classes and container states used to evaluate the claims on
explicit inputs.  `tyXann` is the class `X` as it appears in an
annotation: annotations are consulted only for their registration key
and name, so an annotation carries no parameter list of its own. -/

/-- Class X as used in an annotation position. -/
def tyXann : PyType := .mk ("m") ("X") [] false

/-- Class Y, whose constructor takes `x : X`. -/
def tyY : PyType := .mk ("m") ("Y") [(("x"), some tyXann, false)] false

/-- Class X, whose constructor takes `y : Y`. -/
def tyX : PyType := .mk ("m") ("X") [(("y"), some (PyType.mk ("m") ("Y") [] false), false)] false

/-- A container with the mutually dependent X and Y registered. -/
def stXY : ContainerState :=
  ServiceContainer.register_transient
    (ServiceContainer.register_transient emptyContainer tyX) tyY

/-- Classes X, Y, Z forming the 3-cycle X -> Y -> Z -> X. -/
def tyZ3 : PyType := .mk ("m") ("Z") [(("x"), some tyXann, false)] false

def tyY3 : PyType := .mk ("m") ("Y") [(("z"), some (PyType.mk ("m") ("Z") [] false), false)] false

def tyX3 : PyType := .mk ("m") ("X") [(("y"), some (PyType.mk ("m") ("Y") [] false), false)] false

/-- A container with the 3-cycle registered. -/
def stXYZ : ContainerState :=
  ServiceContainer.register_transient
    (ServiceContainer.register_transient
      (ServiceContainer.register_transient emptyContainer tyX3) tyY3) tyZ3

/-- A parameterless constructible class. -/
def tyS : PyType := .mk ("m") ("S") [] false

/-- A container with S registered as Scoped. -/
def stS : ContainerState := ServiceContainer.register_scoped emptyContainer tyS

/-- A class registered through a raising factory. -/
def tyF : PyType := .mk ("m") ("F") [] false

/-- A container whose factory for F raises a `ValueError`-like
exception. -/
def stF : ContainerState :=
  ServiceContainer.register_factory emptyContainer tyF (.raises ("boom"))

/-- A parameterless class whose constructor body raises. -/
def tyCt : PyType := .mk ("m") ("C") [] true

/-- A container with the raising-constructor class registered. -/
def stCt : ContainerState := ServiceContainer.register_transient emptyContainer tyCt

/-- Class B, a parameterless singleton dependency. -/
def tyB : PyType := .mk ("m") ("B") [] false

/-- Class A, whose constructor takes `b : B` and then raises. -/
def tyA7 : PyType := .mk ("m") ("A") [(("b"), some tyB, false)] true

/-- A container with B registered singleton and A transient. -/
def stAB : ContainerState :=
  ServiceContainer.register_transient
    (ServiceContainer.register_singleton emptyContainer tyB) tyA7

/-- A parameterless class for the re-registration scenario. -/
def tyR : PyType := .mk ("m") ("R") [] false

/-- R registered as a singleton. -/
def st9a : ContainerState := ServiceContainer.register_singleton emptyContainer tyR

/-- The container after R has been resolved once (its instance is
cached). -/
def st9b : ContainerState := (ServiceContainer.resolve st9a tyR none ("t") 5).2

/-- The container after R is then re-registered as transient. -/
def st9c : ContainerState := ServiceContainer.register_transient st9b tyR

/-- A container holding a fixed registered instance of X, used to
observe interceptor application on a cache hit. -/
def stW : ContainerState :=
  ServiceContainer.register_instance emptyContainer tyXann (.obj 7)

/-- First interceptor of the composition-order scenario: wraps with
marker 1. -/
def intF : Interceptor := fun _ v => .marked 1 v

/-- Second interceptor of the composition-order scenario: wraps with
marker 2. -/
def intG : Interceptor := fun _ v => .marked 2 v

/-- A parameterless singleton class for the repeated-resolution
scenario. -/
def tyQ : PyType := .mk ("m") ("Q") [] false

/-- Q registered as a singleton. -/
def stC1 : ContainerState := ServiceContainer.register_singleton emptyContainer tyQ

/-- First scope session: a fresh handle resolving the Scoped class S. -/
def c3_first : Except PyErr Value × DependencyScope × ContainerState :=
  DependencyScope.resolve DependencyScope.new stS tyS none ("t") 5

/-- The first handle after it exits. -/
def c3_closedScope : DependencyScope := DependencyScope.close c3_first.2.1

/-- Second scope session: a fresh handle opened after the first one
closed, resolving S again on the same thread. -/
def c3_second : Except PyErr Value × DependencyScope × ContainerState :=
  DependencyScope.resolve DependencyScope.new c3_first.2.2 tyS none ("t") 5

/-- The caches agree at key `k`: same singleton entry and the same
scoped entry for every thread. -/
def cachePres (k : String) (c c2 : Caches) : Prop :=
  dictLookup c2.singletons k = dictLookup c.singletons k ∧
  ∀ tid, scopedLookup c2 tid k = scopedLookup c tid k

/-! Helper lemmas about the dictionary model and cache preservation. -/

theorem dictLookup_insert_self {α : Type} (m : List (String × α)) (k : String) (v : α) :
    dictLookup (dictInsert m k v) k = some v := by
  induction m with
  | nil => simp [dictInsert, dictLookup]
  | cons hd tl ih =>
    obtain ⟨k1, v1⟩ := hd
    by_cases h : k1 = k
    · simp [dictInsert, dictLookup, h]
    · simp [dictInsert, dictLookup, h, ih]

theorem dictLookup_insert_ne {α : Type} (m : List (String × α)) (k k2 : String) (v : α)
    (h : k ≠ k2) : dictLookup (dictInsert m k v) k2 = dictLookup m k2 := by
  induction m with
  | nil => simp [dictInsert, dictLookup, h]
  | cons hd tl ih =>
    obtain ⟨k1, v1⟩ := hd
    by_cases h1 : k1 = k
    · simp [dictInsert, dictLookup, h1, h]
    · simp [dictInsert, dictLookup, h1, ih]

theorem ri_singleton_ok_caches : ∀ fuel regs ints caches t n tid v caches1 reg,
    dictLookup regs (_get_key t n) = some reg →
    reg.lifecycle = .SINGLETON →
    _resolve_internal fuel regs ints caches t n tid [] = (.ok v, caches1) →
    ∃ inst, dictLookup caches1.singletons (_get_key t n) = some inst ∧
      v = _apply_interceptors ints t inst := by
  intro fuel regs ints caches t n tid v caches1 reg hreg hlife h
  cases fuel with
  | zero => simp [_resolve_internal] at h
  | succ fu =>
    simp only [_resolve_internal, List.not_mem_nil, if_false, hreg, hlife] at h
    cases hc : dictLookup caches.singletons (_get_key t n) with
    | some cached =>
      rw [hc] at h
      simp at h
      exact ⟨cached, by rw [h.2.symm]; exact ⟨hc, h.1.symm⟩⟩
    | none =>
      rw [hc] at h
      rcases h2 : _create_instance
          (fun c dep p => _resolve_internal fu regs ints c dep none tid p)
          caches reg ([] ++ [_get_key t n]) with ⟨r, c2⟩
      rw [h2] at h
      cases r with
      | error e => simp at h
      | ok inst =>
        simp at h
        refine ⟨inst, ?_, h.1.symm⟩
        rw [h.2.symm]
        exact dictLookup_insert_self _ _ _

theorem ri_singleton_cache_hit : ∀ fuel regs ints caches t n tid inst reg,
    dictLookup regs (_get_key t n) = some reg →
    reg.lifecycle = .SINGLETON →
    dictLookup caches.singletons (_get_key t n) = some inst →
    _resolve_internal (fuel + 1) regs ints caches t n tid []
      = (.ok (_apply_interceptors ints t inst), caches) := by
  intro fuel regs ints caches t n tid inst reg hreg hlife hcache
  simp only [_resolve_internal, List.not_mem_nil, if_false, hreg, hlife, hcache]

theorem cachePres_refl (k : String) (c : Caches) : cachePres k c c :=
  ⟨rfl, fun _ => rfl⟩

theorem cachePres_trans {k : String} {a b c : Caches}
    (h1 : cachePres k a b) (h2 : cachePres k b c) : cachePres k a c :=
  ⟨h2.1.trans h1.1, fun tid => (h2.2 tid).trans (h1.2 tid)⟩

theorem cachePres_nextId (k : String) (c : Caches) (n : Nat) :
    cachePres k c { c with nextId := n } :=
  ⟨rfl, fun _ => rfl⟩

theorem cachePres_insert_singleton (k key : String) (c : Caches) (inst : Value)
    (h : key ≠ k) :
    cachePres k c { c with singletons := dictInsert c.singletons key inst } :=
  ⟨dictLookup_insert_ne _ key k inst h, fun _ => rfl⟩

theorem cachePres_insert_thread_empty (k tid : String) (c : Caches)
    (h : dictLookup c.scoped_instances tid = none) :
    cachePres k c { c with scoped_instances := dictInsert c.scoped_instances tid [] } := by
  refine ⟨rfl, fun tid1 => ?_⟩
  unfold scopedLookup
  by_cases ht : tid = tid1
  · subst ht
    simp only [dictLookup_insert_self, h]
    rfl
  · simp only [dictLookup_insert_ne _ _ _ _ ht]

theorem cachePres_insert_scoped (k key tid : String) (c : Caches) (inst : Value) (h : key ≠ k) : cachePres k c { c with scoped_instances := dictInsert c.scoped_instances tid (dictInsert ((dictLookup c.scoped_instances tid).getD []) key inst) } := by
  refine ⟨rfl, fun tid1 => ?_⟩
  unfold scopedLookup
  by_cases ht : tid = tid1
  · subst ht
    simp only [dictLookup_insert_self, Option.getD_some]
    exact dictLookup_insert_ne _ _ _ _ h
  · simp only [dictLookup_insert_ne _ _ _ _ ht]

theorem resolveParams_pres (rd : DepResolver) (k : String) (path : List String)
    (hrd : ∀ c ann, cachePres k c (rd c ann path).2) :
    ∀ (ps : List (String × Option PyType × Bool)) (c : Caches),
      cachePres k c (resolveParams rd c ps path).2 := by
  intro ps
  induction ps with
  | nil => intro c; exact cachePres_refl k c
  | cons p rest ih =>
    intro c
    simp only [resolveParams]
    cases hp : paramAnnot p with
    | none => exact ih c
    | some ann =>
      rcases hr : rd c ann path with ⟨r, c2⟩
      have h1 : cachePres k c c2 := by
        have h0 := hrd c ann
        rw [hr] at h0
        exact h0
      simp only [hr]
      cases r with
      | ok v => exact cachePres_trans h1 (ih c2)
      | error e =>
        cases he : isDependencyResolutionErr e with
        | true =>
          simp only [he, if_true]
          cases hd : paramHasDefault p with
          | true =>
            simp only [hd, if_true]
            exact cachePres_trans h1 (ih c2)
          | false =>
            simp only [hd, Bool.false_eq_true, if_false]
            exact h1
        | false =>
          simp only [he, Bool.false_eq_true, if_false]
          exact h1

theorem cwd_pres (rd : DepResolver) (k : String) (path : List String)
    (hrd : ∀ c ann, cachePres k c (rd c ann path).2)
    (c : Caches) (impl : PyType) :
    cachePres k c (_create_with_dependencies rd c impl path).2 := by
  have h0 := resolveParams_pres rd k path hrd impl.params c
  simp only [_create_with_dependencies]
  split
  next e c2 heq =>
    rw [heq] at h0
    exact h0
  next u c2 heq =>
    rw [heq] at h0
    by_cases ha : impl.params.any (fun p => (paramAnnot p).isNone && !(paramHasDefault p)) = true
    · simp only [ha, if_true]
      exact h0
    · simp only [ha, if_false]
      by_cases hc : impl.ctorRaises = true
      · simp only [hc, if_true]
        exact h0
      · simp only [hc, if_false]
        exact cachePres_trans h0 (cachePres_nextId k c2 (c2.nextId + 1))

theorem ci_pres (rd : DepResolver) (k : String) (path : List String)
    (hrd : ∀ c ann, cachePres k c (rd c ann path).2)
    (c : Caches) (reg : Registration) :
    cachePres k c (_create_instance rd c reg path).2 := by
  simp only [_create_instance]
  cases reg.instVal with
  | some v => exact cachePres_refl k c
  | none =>
    cases reg.factory with
    | some f =>
      cases f with
      | ret v => exact cachePres_refl k c
      | raises m => exact cachePres_refl k c
      | fresh => exact cachePres_nextId k c (c.nextId + 1)
    | none =>
      cases reg.implementation_type with
      | none => exact cachePres_refl k c
      | some impl => exact cwd_pres rd k path hrd c impl

theorem ri_path_pres : ∀ (fuel : Nat) regs ints (c : Caches) t n tid path (k : String),
    k ∈ path →
    cachePres k c (_resolve_internal fuel regs ints c t n tid path).2 := by
  intro fuel
  induction fuel with
  | zero =>
    intro regs ints c t n tid path k _
    exact cachePres_refl k c
  | succ fu ih =>
    intro regs ints c t n tid path k hk
    simp only [_resolve_internal]
    split
    · exact cachePres_refl k c
    next hnotin =>
      have hne : _get_key t n ≠ k := fun he => hnotin (he ▸ hk)
      have hrd : ∀ (c2 : Caches) (ann : PyType), cachePres k c2
          ((fun c dep p => _resolve_internal fu regs ints c dep none tid p) c2 ann
            (path ++ [_get_key t n])).2 :=
        fun c2 ann => ih regs ints c2 ann none tid _ k (List.mem_append_left _ hk)
      split
      · exact cachePres_refl k c
      next reg hreg =>
        split
        · -- singleton branch
          split
          · exact cachePres_refl k c
          next hmiss =>
            split
            next e c2 heq =>
              have h0 := ci_pres _ k _ hrd c reg
              rw [heq] at h0
              exact h0
            next inst c2 heq =>
              have h0 := ci_pres _ k _ hrd c reg
              rw [heq] at h0
              exact cachePres_trans h0 (cachePres_insert_singleton k _ c2 inst hne)
        · -- scoped branch
          have hpres1 : cachePres k c (if (dictLookup c.scoped_instances tid).isSome then c
              else { c with scoped_instances := dictInsert c.scoped_instances tid [] }) := by
            by_cases hsome : (dictLookup c.scoped_instances tid).isSome = true
            · simp only [hsome, if_true]
              exact cachePres_refl k c
            · simp only [hsome, if_false]
              exact cachePres_insert_thread_empty k tid c (Option.not_isSome_iff_eq_none.mp
                (fun hcon => hsome hcon))
          split
          · exact hpres1
          next hmiss =>
            split
            next e c2 heq =>
              have h0 := ci_pres _ k _ hrd (if (dictLookup c.scoped_instances tid).isSome then c else { c with scoped_instances := dictInsert c.scoped_instances tid [] }) reg
              rw [heq] at h0
              exact cachePres_trans hpres1 h0
            next inst c2 heq =>
              have h0 := ci_pres _ k _ hrd (if (dictLookup c.scoped_instances tid).isSome then c else { c with scoped_instances := dictInsert c.scoped_instances tid [] }) reg
              rw [heq] at h0
              exact cachePres_trans hpres1
                (cachePres_trans h0 (cachePres_insert_scoped k _ tid c2 inst hne))
        · -- transient branch
          split
          next e c2 heq =>
            have h0 := ci_pres _ k _ hrd c reg
            rw [heq] at h0
            exact h0
          next inst c2 heq =>
            have h0 := ci_pres _ k _ hrd c reg
            rw [heq] at h0
            exact h0

theorem ri_err_pres : ∀ (fuel : Nat) regs ints (c : Caches) t n tid e c1,
    _resolve_internal fuel regs ints c t n tid [] = (.error e, c1) →
    cachePres (_get_key t n) c c1 := by
  intro fuel regs ints c t n tid e c1 h
  cases fuel with
  | zero =>
    simp only [_resolve_internal, Prod.mk.injEq] at h
    rw [h.2.symm]
    exact cachePres_refl _ c
  | succ fu =>
    have hrd : ∀ (c2 : Caches) (ann : PyType), cachePres (_get_key t n) c2
        ((fun c dep p => _resolve_internal fu regs ints c dep none tid p) c2 ann
          ([] ++ [_get_key t n])).2 :=
      fun c2 ann => ri_path_pres fu regs ints c2 ann none tid ([] ++ [_get_key t n])
        (_get_key t n) (by simp)
    simp only [_resolve_internal, List.not_mem_nil, if_false] at h
    split at h
    · simp only [Prod.mk.injEq] at h
      rw [h.2.symm]
      exact cachePres_refl _ c
    next reg hreg =>
      split at h
      · -- singleton branch
        split at h
        · simp at h
        next hmiss =>
          split at h
          next e0 c2 heq =>
            simp only [Prod.mk.injEq] at h
            rw [h.2.symm]
            have h0 := ci_pres _ (_get_key t n) _ hrd c reg
            rw [heq] at h0
            exact h0
          next inst c2 heq =>
            simp at h
      · -- scoped branch
        have hpres1 : cachePres (_get_key t n) c
            (if (dictLookup c.scoped_instances tid).isSome then c
              else { c with scoped_instances := dictInsert c.scoped_instances tid [] }) := by
          by_cases hsome : (dictLookup c.scoped_instances tid).isSome = true
          · simp only [hsome, if_true]
            exact cachePres_refl _ c
          · simp only [hsome, if_false]
            exact cachePres_insert_thread_empty _ tid c
              (Option.not_isSome_iff_eq_none.mp (fun hcon => hsome hcon))
        split at h
        · simp at h
        next hmiss =>
          split at h
          next e0 c2 heq =>
            simp only [Prod.mk.injEq] at h
            rw [h.2.symm]
            have h0 := ci_pres _ (_get_key t n) _ hrd
              (if (dictLookup c.scoped_instances tid).isSome then c
                else { c with scoped_instances := dictInsert c.scoped_instances tid [] }) reg
            rw [heq] at h0
            exact cachePres_trans hpres1 h0
          next inst c2 heq =>
            simp at h
      · -- transient branch
        split at h
        next e0 c2 heq =>
          simp only [Prod.mk.injEq] at h
          rw [h.2.symm]
          have h0 := ci_pres _ (_get_key t n) _ hrd c reg
          rw [heq] at h0
          exact h0
        next inst c2 heq =>
          simp at h

/-- C1: for an identity registered with Singleton lifecycle, once a
resolve on the container succeeds, every later resolve of the same
identity (from any thread, with any recursion budget) returns the same
value and leaves the whole container state — including the allocation
counter, so no further construction happens — untouched; the returned
value is the interceptor chain applied to the instance cached by the
first call. -/
theorem c1_singleton_identity : ∀ (st : ContainerState) t n tid tid2 fuel fuel2 v st1 reg,
    dictLookup st.registrations (_get_key t n) = some reg →
    reg.lifecycle = .SINGLETON →
    ServiceContainer.resolve st t n tid fuel = (.ok v, st1) →
    ServiceContainer.resolve st1 t n tid2 (fuel2 + 1) = (.ok v, st1) ∧
    ∃ inst, dictLookup st1.singletons (_get_key t n) = some inst ∧
      v = _apply_interceptors st.interceptors t inst := by
  intro st t n tid tid2 fuel fuel2 v st1 reg hreg hlife h
  unfold ServiceContainer.resolve at h
  rcases hri : _resolve_internal fuel st.registrations st.interceptors st.caches t n tid []
    with ⟨r, c1⟩
  rw [hri] at h
  simp at h
  obtain ⟨hv, hst1⟩ := h
  cases r with
  | error e => simp at hv
  | ok v0 =>
    simp at hv
    subst hv
    obtain ⟨inst, hinst, hval⟩ := ri_singleton_ok_caches fuel st.registrations st.interceptors
      st.caches t n tid v0 c1 reg hreg hlife hri
    subst hst1
    constructor
    · have h2 := ri_singleton_cache_hit fuel2 st.registrations st.interceptors c1 t n tid2
        inst reg hreg hlife hinst
      unfold ServiceContainer.resolve
      simp only [show (st.withCaches c1).registrations = st.registrations from rfl,
        show (st.withCaches c1).interceptors = st.interceptors from rfl,
        show (st.withCaches c1).caches = c1 from rfl, h2, hval]
      rfl
    · exact ⟨inst, hinst, hval⟩

/-- Witness for C1: Q is registered singleton in `stC1`; the first
resolve constructs object 0, the second returns it unchanged. -/
theorem c1_singleton_identity_witness :
    ServiceContainer.resolve ((ServiceContainer.resolve stC1 tyQ none ("t") 5).2) tyQ none
        ("t2") 1
      = (.ok (.obj 0), (ServiceContainer.resolve stC1 tyQ none ("t") 5).2) ∧
    ∃ inst, dictLookup (ServiceContainer.resolve stC1 tyQ none ("t") 5).2.singletons
        (_get_key tyQ none) = some inst ∧
      Value.obj 0 = _apply_interceptors stC1.interceptors tyQ inst :=
  c1_singleton_identity stC1 tyQ none ("t") ("t2") 5 0 (.obj 0) _ _ rfl rfl rfl

/-- C2: resolving either side of a registered 2-cycle (or a 3-cycle)
does fail, but the exception that reaches the caller is a generic
`DependencyResolutionException` produced by the blanket wrapping in
`_create_with_dependencies`, whose message names one unresolvable
parameter, not the cycle; the `CircularDependencyException` raised
internally never escapes. -/
theorem c2_cycle_error_wrapped_generic :
    (ServiceContainer.resolve stXY tyX none ("t") 10).1
      = .error (.dependencyResolution
          ("Failed to create X: Cannot resolve parameter y of type Y")) ∧
    (ServiceContainer.resolve stXY tyY none ("t") 10).1
      = .error (.dependencyResolution
          ("Failed to create Y: Cannot resolve parameter x of type X")) ∧
    (ServiceContainer.resolve stXYZ tyX3 none ("t") 10).1
      = .error (.dependencyResolution
          ("Failed to create X: Cannot resolve parameter y of type Y")) ∧
    isCircularDependencyErr
      (.dependencyResolution ("Failed to create X: Cannot resolve parameter y of type Y"))
      = false :=
  ⟨rfl, rfl, rfl, rfl⟩

/-- C3: the Scoped cache is keyed by thread, not by scope session.  A
handle resolving the Scoped class S caches object 0 both in the handle
and in the container's per-thread store; closing the handle clears only
the handle's own cache, so a fresh handle opened afterwards on the same
thread receives the very same object 0 from the container. -/
theorem c3_closed_scope_leaks_cached_instance :
    c3_first.1 = .ok (.obj 0) ∧
    c3_closedScope.scoped_cache = [] ∧
    scopedLookup c3_first.2.2.caches ("t") (_get_key tyS none) = some (.obj 0) ∧
    c3_second.1 = .ok (.obj 0) :=
  ⟨rfl, rfl, rfl, rfl⟩

/-- C4 counterexample: on the cyclic container the resolve failure is a
construction failure (its message shows it is not the not-registered
error), yet `try_resolve` converts it to an absent result instead of
propagating it. -/
theorem c4_try_resolve_swallows_construction_failure :
    (ServiceContainer.resolve stXY tyX none ("t") 10).1
      = .error (.dependencyResolution
          ("Failed to create X: Cannot resolve parameter y of type Y")) ∧
    ((("Failed to create X: Cannot resolve parameter y of type Y")
        == ("Service X not registered")) = false) ∧
    (ServiceContainer.try_resolve stXY tyX none ("t") 10).1 = .ok none :=
  ⟨rfl, rfl, rfl⟩

/-- C4 amended: `try_resolve` converts every failure of the
`DependencyResolutionException` family — not-registered, the wrapped
circular-dependency failures and wrapped construction failures alike —
into an absent result; only errors outside that family (raw exceptions
from factories) propagate. -/
theorem c4_try_resolve_masks_all_resolution_errors : ∀ (st : ContainerState) t n tid fuel e,
    (ServiceContainer.resolve st t n tid fuel).1 = .error e →
    (ServiceContainer.try_resolve st t n tid fuel).1
      = (if isDependencyResolutionErr e then .ok none else .error e) := by
  intro st t n tid fuel e h
  unfold ServiceContainer.try_resolve
  rcases hr : ServiceContainer.resolve st t n tid fuel with ⟨r, st2⟩
  rw [hr] at h
  simp only at h
  subst h
  by_cases he : isDependencyResolutionErr e = true
  · simp [he]
  · simp [he]

/-- Witness for C4: applied to the cyclic container, where the failure
is in the wrapped family, so the result is absent. -/
theorem c4_try_resolve_masks_all_resolution_errors_witness :
    (ServiceContainer.try_resolve stXY tyX none ("t") 10).1 = .ok none := by
  have h := c4_try_resolve_masks_all_resolution_errors stXY tyX none ("t") 10
    (.dependencyResolution ("Failed to create X: Cannot resolve parameter y of type Y")) rfl
  simpa using h

/-- C5 counterexample: resolving the Scoped class S without any scope
handle or token succeeds (object 0) and caches the instance under the
calling thread's identity; no failure of any kind is raised. -/
theorem c5_scoped_resolve_succeeds_without_scope :
    (ServiceContainer.resolve stS tyS none ("t") 5).1 = .ok (.obj 0) ∧
    (ServiceContainer.resolve stS tyS none ("t") 5).2.scoped_instances
      = [(("t"), [(("m.S"), Value.obj 0)])] :=
  ⟨rfl, rfl⟩

/-- C5 amended: a Scoped identity resolved without any scope session
succeeds — the code has no `NoActiveScope` failure; the calling thread's
identity serves as the implicit scope key, and the fresh instance is
cached under `(thread, identity)`. -/
theorem c5_scoped_thread_keyed : ∀ (st : ContainerState) t n tid fuel reg impl,
    dictLookup st.registrations (_get_key t n) = some reg →
    reg.lifecycle = .SCOPED →
    reg.instVal = none →
    reg.factory = none →
    reg.implementation_type = some impl →
    impl.params = [] →
    impl.ctorRaises = false →
    scopedLookup st.caches tid (_get_key t n) = none →
    (ServiceContainer.resolve st t n tid (fuel + 1)).1
      = .ok (_apply_interceptors st.interceptors t (.obj st.nextId)) ∧
    scopedLookup (ServiceContainer.resolve st t n tid (fuel + 1)).2.caches tid
      (_get_key t n) = some (.obj st.nextId) := by
  intro st t n tid fuel reg impl hreg hlife hinst hfac himpl hparams hraise hmiss
  unfold ServiceContainer.resolve
  unfold scopedLookup at hmiss
  cases hsc : dictLookup st.caches.scoped_instances tid with
  | some m =>
    rw [hsc] at hmiss
    simp only [Option.getD_some] at hmiss
    simp only [_resolve_internal, List.not_mem_nil, if_false, hreg, hlife, hsc,
      Option.isSome_some, if_true, Option.getD_some, hmiss,
      _create_instance, hinst, hfac, himpl, _create_with_dependencies, hparams,
      resolveParams, List.any_nil, hraise, Bool.false_eq_true, if_false]
    simp only [scopedLookup, ContainerState.withCaches, ContainerState.caches,
      dictLookup_insert_self, Option.getD_some]
    exact ⟨trivial, trivial⟩
  | none =>
    rw [hsc] at hmiss
    simp only [Option.getD_none] at hmiss
    simp only [_resolve_internal, List.not_mem_nil, if_false, hreg, hlife, hsc,
      Option.isSome_none, Bool.false_eq_true, if_false, dictLookup_insert_self,
      Option.getD_some, dictLookup,
      _create_instance, hinst, hfac, himpl, _create_with_dependencies, hparams,
      resolveParams, List.any_nil, hraise]
    simp only [scopedLookup, ContainerState.withCaches, ContainerState.caches,
      dictLookup_insert_self, Option.getD_some]
    exact ⟨trivial, trivial⟩

/-- Witness for C5: the Scoped class S, resolved on thread t2 with no
scope anywhere in sight. -/
theorem c5_scoped_thread_keyed_witness :
    (ServiceContainer.resolve stS tyS none ("t2") 5).1
      = .ok (_apply_interceptors stS.interceptors tyS (.obj stS.nextId)) ∧
    scopedLookup (ServiceContainer.resolve stS tyS none ("t2") 5).2.caches ("t2")
      (_get_key tyS none) = some (.obj stS.nextId) :=
  c5_scoped_thread_keyed stS tyS none ("t2") 4 _ _ rfl rfl rfl rfl rfl rfl rfl rfl

/-- C6 counterexample: the factory for F raises; `resolve` re-raises
that exact exception unwrapped — it is not converted into any
container-level failure type carrying a cause. -/
theorem c6_factory_error_unwrapped :
    (ServiceContainer.resolve stF tyF none ("t") 5).1 = .error (.other ("boom")) ∧
    isDependencyResolutionErr (.other ("boom")) = false :=
  ⟨rfl, rfl⟩

/-- C6 amended: only constructor-injected construction wraps errors —
an exception from a registered class constructor surfaces as a
`DependencyResolutionException` whose message embeds the constructor
failure (no structured cause field exists); an exception from a
registered factory propagates raw and unwrapped. -/
theorem c6_wrapping_constructor_only :
    (∀ (st : ContainerState) t n tid fuel reg m,
      dictLookup st.registrations (_get_key t n) = some reg →
      reg.lifecycle = .TRANSIENT →
      reg.instVal = none →
      reg.factory = some (.raises m) →
      (ServiceContainer.resolve st t n tid (fuel + 1)).1 = .error (.other m)) ∧
    (∀ (st : ContainerState) t n tid fuel reg impl,
      dictLookup st.registrations (_get_key t n) = some reg →
      reg.lifecycle = .TRANSIENT →
      reg.instVal = none →
      reg.factory = none →
      reg.implementation_type = some impl →
      impl.params = [] →
      impl.ctorRaises = true →
      (ServiceContainer.resolve st t n tid (fuel + 1)).1
        = .error (.dependencyResolution
            ("Failed to create " ++ impl.typeName ++ ": constructor raised"))) := by
  constructor
  · intro st t n tid fuel reg m hreg hlife hinst hfac
    unfold ServiceContainer.resolve
    simp only [_resolve_internal, List.not_mem_nil, if_false, hreg, hlife,
      _create_instance, hinst, hfac, runFactory]
  · intro st t n tid fuel reg impl hreg hlife hinst hfac himpl hparams hraise
    unfold ServiceContainer.resolve
    simp only [_resolve_internal, List.not_mem_nil, if_false, hreg, hlife,
      _create_instance, hinst, hfac, himpl, _create_with_dependencies, hparams,
      resolveParams, List.any_nil, hraise, if_true, Bool.false_eq_true, if_false]

/-- Witness for C6: the raising factory F propagates raw; the raising
constructor C is wrapped with the class name in the message. -/
theorem c6_wrapping_constructor_only_witness :
    (ServiceContainer.resolve stF tyF none ("t") 5).1 = .error (.other ("boom")) ∧
    (ServiceContainer.resolve stCt tyCt none ("t") 5).1
      = .error (.dependencyResolution ("Failed to create C: constructor raised")) := by
  constructor
  · exact c6_wrapping_constructor_only.1 stF tyF none ("t") 4 _ ("boom") rfl rfl rfl rfl
  · have h := c6_wrapping_constructor_only.2 stCt tyCt none ("t") 4 _ _ rfl rfl rfl rfl rfl
      rfl rfl
    simpa using h

/-- C7 counterexample: resolving A fails (its constructor raises after
its dependency B was resolved), yet the failed call has changed the
singleton cache: B, absent before the call, is cached afterwards. -/
theorem c7_failed_resolve_caches_dependency :
    (ServiceContainer.resolve stAB tyA7 none ("t") 10).1
      = .error (.dependencyResolution ("Failed to create A: constructor raised")) ∧
    stAB.singletons = [] ∧
    (ServiceContainer.resolve stAB tyA7 none ("t") 10).2.singletons
      = [(("m.B"), Value.obj 0)] :=
  ⟨rfl, rfl, rfl⟩

/-- C7 amended: a failed resolve never stores anything under the
requested identity's own key — its singleton entry and its scoped entry
on every thread are exactly as before the call — though instances of
dependencies that completed before the failure may remain cached and an
empty per-thread scoped map may appear. -/
theorem c7_failed_resolve_requested_key_unchanged : ∀ (st : ContainerState) t n tid fuel e st1,
    ServiceContainer.resolve st t n tid fuel = (.error e, st1) →
    dictLookup st1.singletons (_get_key t n) = dictLookup st.singletons (_get_key t n) ∧
    ∀ tid2, scopedLookup st1.caches tid2 (_get_key t n)
      = scopedLookup st.caches tid2 (_get_key t n) := by
  intro st t n tid fuel e st1 h
  unfold ServiceContainer.resolve at h
  rcases hri : _resolve_internal fuel st.registrations st.interceptors st.caches t n tid []
    with ⟨r, c1⟩
  rw [hri] at h
  simp only [Prod.mk.injEq] at h
  cases r with
  | ok v => simp at h
  | error e0 =>
    simp only [Except.error.injEq] at h
    obtain ⟨he, hst1⟩ := h
    subst he
    have hpres := ri_err_pres _ _ _ _ _ _ _ _ _ hri
    subst hst1
    exact ⟨hpres.1, hpres.2⟩

/-- Witness for C7: the failing resolve of A leaves A's own singleton
entry and its scoped entry for thread t unchanged. -/
theorem c7_failed_resolve_requested_key_unchanged_witness :
    dictLookup (ServiceContainer.resolve stAB tyA7 none ("t") 10).2.singletons
        (_get_key tyA7 none)
      = dictLookup stAB.singletons (_get_key tyA7 none) ∧
    scopedLookup (ServiceContainer.resolve stAB tyA7 none ("t") 10).2.caches ("t")
        (_get_key tyA7 none)
      = scopedLookup stAB.caches ("t") (_get_key tyA7 none) := by
  have h := c7_failed_resolve_requested_key_unchanged stAB tyA7 none ("t") 10
    (.dependencyResolution ("Failed to create A: constructor raised"))
    (ServiceContainer.resolve stAB tyA7 none ("t") 10).2 rfl
  exact ⟨h.1, h.2 ("t")⟩

/-- C8: interceptors added as f then g compose left to right: the chain
applied to x is g(f(x)); a resolve whose singleton-cache lookup hits
returns g(f(cached)) without touching the state; and every successful
resolve whatsoever returns g(f(inst)) for some instance — so the chain
also runs on every cache hit. -/
theorem c8_interceptor_composition :
    (∀ (f g : Interceptor) t x, _apply_interceptors [f, g] t x = g t (f t x)) ∧
    (∀ (f g : Interceptor) fuel regs caches t n tid reg x,
      dictLookup regs (_get_key t n) = some reg →
      reg.lifecycle = .SINGLETON →
      dictLookup caches.singletons (_get_key t n) = some x →
      _resolve_internal (fuel + 1) regs [f, g] caches t n tid []
        = (.ok (g t (f t x)), caches)) ∧
    (∀ (f g : Interceptor) fuel regs caches t n tid path v caches2,
      _resolve_internal fuel regs [f, g] caches t n tid path = (.ok v, caches2) →
      ∃ inst, v = g t (f t inst)) := by
  refine ⟨fun _ _ _ _ => rfl, ?_, ?_⟩
  · intro f g fuel regs caches t n tid reg x hreg hlife hcache
    simp only [_resolve_internal, List.not_mem_nil, if_false, hreg, hlife, hcache,
      _apply_interceptors, List.foldl]
  · intro f g fuel regs caches t n tid path v caches2 h
    cases fuel with
    | zero => simp [_resolve_internal] at h
    | succ fu =>
      simp only [_resolve_internal] at h
      split at h
      · simp at h
      · split at h
        · simp at h
        · split at h
          · split at h
            · simp [_apply_interceptors, List.foldl] at h
              exact ⟨_, h.1.symm⟩
            · split at h
              · simp at h
              · simp [_apply_interceptors, List.foldl] at h
                exact ⟨_, h.1.symm⟩
          · split at h
            · simp [_apply_interceptors, List.foldl] at h
              exact ⟨_, h.1.symm⟩
            · split at h
              · simp at h
              · simp [_apply_interceptors, List.foldl] at h
                exact ⟨_, h.1.symm⟩
          · split at h
            · simp at h
            · simp [_apply_interceptors, List.foldl] at h
              exact ⟨_, h.1.symm⟩

/-- Witness for C8: with the marker interceptors f (marker 1) then g
(marker 2) on a container holding the fixed instance object 7, the
cache-hit resolve returns `marked 2 (marked 1 (obj 7))`. -/
theorem c8_interceptor_composition_witness :
    _apply_interceptors [intF, intG] tyXann (.obj 7)
      = intG tyXann (intF tyXann (.obj 7)) ∧
    _resolve_internal 1 stW.registrations [intF, intG] stW.caches tyXann none ("t") []
      = (.ok (intG tyXann (intF tyXann (.obj 7))), stW.caches) ∧
    ∃ inst, (Value.marked 2 (Value.marked 1 (.obj 7))) = intG tyXann (intF tyXann inst) := by
  refine ⟨c8_interceptor_composition.1 intF intG tyXann (.obj 7),
    c8_interceptor_composition.2.1 intF intG 0 stW.registrations stW.caches tyXann none
      ("t") _ (.obj 7) rfl rfl rfl,
    c8_interceptor_composition.2.2 intF intG 1 stW.registrations stW.caches tyXann none
      ("t") [] _ _ rfl⟩

/-- C9 counterexample: R is registered singleton and resolved once
(object 0, cached); re-registering it via `register_transient` keeps the
cached object 0 in the singleton cache, but the next resolve follows the
new transient registration and constructs object 1 instead of returning
the cached instance. -/
theorem c9_reregistered_transient_ignores_cache :
    (ServiceContainer.resolve st9b tyR none ("t") 5).1 = .ok (.obj 0) ∧
    st9c.singletons = [(("m.R"), Value.obj 0)] ∧
    (ServiceContainer.resolve st9c tyR none ("t") 5).1 = .ok (.obj 1) ∧
    ((Value.obj 1 == Value.obj 0) = false) :=
  ⟨rfl, rfl, rfl, rfl⟩

/-- C9 amended: `register_singleton`, `register_transient`,
`register_scoped` and `register_factory` all leave the singleton cache
untouched; and when the re-registration keeps Singleton lifecycle
(`register_singleton`, or `register_factory` with Singleton), a resolve
after the re-registration still returns the previously cached instance,
ignoring the new recipe. -/
theorem c9_registration_preserves_singleton_cache :
    (∀ (st : ContainerState) t impl n,
      (ServiceContainer.register_singleton st t impl n).singletons = st.singletons) ∧
    (∀ (st : ContainerState) t impl n,
      (ServiceContainer.register_transient st t impl n).singletons = st.singletons) ∧
    (∀ (st : ContainerState) t impl n,
      (ServiceContainer.register_scoped st t impl n).singletons = st.singletons) ∧
    (∀ (st : ContainerState) t fac lc n,
      (ServiceContainer.register_factory st t fac lc n).singletons = st.singletons) ∧
    (∀ (st : ContainerState) t impl n tid fuel v,
      dictLookup st.singletons (_get_key t n) = some v →
      ServiceContainer.resolve (ServiceContainer.register_singleton st t impl n) t n tid
          (fuel + 1)
        = (.ok (_apply_interceptors st.interceptors t v),
           ServiceContainer.register_singleton st t impl n)) ∧
    (∀ (st : ContainerState) t fac n tid fuel v,
      dictLookup st.singletons (_get_key t n) = some v →
      ServiceContainer.resolve (ServiceContainer.register_factory st t fac .SINGLETON n) t n
          tid (fuel + 1)
        = (.ok (_apply_interceptors st.interceptors t v),
           ServiceContainer.register_factory st t fac .SINGLETON n)) := by
  refine ⟨fun _ _ _ _ => rfl, fun _ _ _ _ => rfl, fun _ _ _ _ => rfl, fun _ _ _ _ _ => rfl,
    ?_, ?_⟩
  · intro st t impl n tid fuel v hv
    have h2 := ri_singleton_cache_hit fuel
      (ServiceContainer.register_singleton st t impl n).registrations
      (ServiceContainer.register_singleton st t impl n).interceptors
      (ServiceContainer.register_singleton st t impl n).caches t n tid v
      { service_type := t, implementation_type := some (impl.getD t),
        lifecycle := .SINGLETON, name := n }
      (dictLookup_insert_self _ _ _) rfl hv
    unfold ServiceContainer.resolve
    simp only [h2]
    rfl
  · intro st t fac n tid fuel v hv
    have h2 := ri_singleton_cache_hit fuel
      (ServiceContainer.register_factory st t fac .SINGLETON n).registrations
      (ServiceContainer.register_factory st t fac .SINGLETON n).interceptors
      (ServiceContainer.register_factory st t fac .SINGLETON n).caches t n tid v
      { service_type := t, factory := some fac, lifecycle := .SINGLETON, name := n }
      (dictLookup_insert_self _ _ _) rfl hv
    unfold ServiceContainer.resolve
    simp only [h2]
    rfl

/-- Witness for C9: the container st9b caches object 0 for R;
re-registering R as a singleton and resolving still yields object 0. -/
theorem c9_registration_preserves_singleton_cache_witness :
    ServiceContainer.resolve (ServiceContainer.register_singleton st9b tyR none none) tyR
        none ("t") 5
      = (.ok (_apply_interceptors st9b.interceptors tyR (.obj 0)),
         ServiceContainer.register_singleton st9b tyR none none) :=
  c9_registration_preserves_singleton_cache.2.2.2.2.1 st9b tyR none none ("t") 4 (.obj 0) rfl

/-- C10: the empty-string name and the missing name produce the same
registration key, so registration lookups and the whole resolution
behave identically under the two spellings. -/
theorem c10_empty_name_equals_unnamed : ∀ (t : PyType),
    _get_key t (some ("")) = _get_key t none ∧
    (∀ (st : ContainerState), ServiceContainer.is_registered st t (some (""))
      = ServiceContainer.is_registered st t none) ∧
    (∀ fuel regs ints caches tid path,
      _resolve_internal fuel regs ints caches t (some ("")) tid path
        = _resolve_internal fuel regs ints caches t none tid path) ∧
    (∀ (st : ContainerState) tid fuel,
      ServiceContainer.resolve st t (some ("")) tid fuel
        = ServiceContainer.resolve st t none tid fuel) := by
  intro t
  have hkey : _get_key t (some ("")) = _get_key t none := by simp [_get_key]
  have hri : ∀ fuel regs ints caches tid path,
      _resolve_internal fuel regs ints caches t (some ("")) tid path
        = _resolve_internal fuel regs ints caches t none tid path := by
    intro fuel regs ints caches tid path
    cases fuel with
    | zero => rfl
    | succ f =>
      simp only [_resolve_internal]
      rw [hkey]
  refine ⟨hkey, ?_, hri, ?_⟩
  · intro st
    unfold ServiceContainer.is_registered
    rw [hkey]
  · intro st tid fuel
    unfold ServiceContainer.resolve
    rw [hri]
